import Mathlib

/-!
Shallow embedding of the deterministic mock supply-chain evaluator from
`backend/app/autogen.py` (`MockSupplyChainAgentSystem.process_order` and
`process_supply_chain_order`), together with proofs of the specification
claims about it.

Python strings are modelled as Lean `String`; the string helpers used by the
code (`str.lower`, `str.upper`, slicing `[:n]`, and the format spec `0>3`)
are modelled characterwise on the underlying character list. Python's
unbounded `int` is modelled as `Int`, and the monetary `float` values
(22.50, 25.00, 27.50, 30.00, 45.00, 75.00 — all exactly representable) as
`Rat`. Wall-clock timestamps (`datetime.utcnow().isoformat()`) are modelled
by an opaque `now : String` parameter threaded into every timestamp field.
-/

/-- Python `str.lower`, modelled characterwise. -/
def pyLower (s : String) : String := String.mk (s.data.map Char.toLower)

/-- Python `str.upper`, modelled characterwise. -/
def pyUpper (s : String) : String := String.mk (s.data.map Char.toUpper)

/-- Python slicing `s[:n]`: the first `n` characters (all of `s` when shorter). -/
def pyTake (s : String) (n : Nat) : String := String.mk (s.data.take n)

/-- Python `len` on strings. -/
def pyLen (s : String) : Nat := s.data.length

/-- Python format spec `0>w` (as in `f"{s:0>3}"`): right-align `s` in a field
of width `w`, filling with the character 0 on the LEFT. When `s` already has
`w` or more characters it is returned unchanged. -/
def padZeroRightAlign (w : Nat) (s : String) : String :=
  String.mk (List.replicate (w - pyLen s) '0' ++ s.data)

/-- `OrderDetails` dataclass (autogen.py lines 22-31). -/
structure OrderDetails where
  order_id : String
  product_name : String
  quantity : Int
  priority : String := "normal"
  destination : String := ""
  required_date : Option String := none
  notes : String := ""
deriving DecidableEq, Repr

/-- `SupplierResponse` dataclass (autogen.py lines 34-42). -/
structure SupplierResponse where
  available : Bool
  supplier_id : String
  unit_price : Rat
  lead_time_days : Int
  capacity : Int
  notes : String := ""
deriving DecidableEq, Repr

/-- `InventoryResponse` dataclass (autogen.py lines 45-53); `last_updated`
defaults to the evaluation-time timestamp, here the explicit `now`. -/
structure InventoryResponse where
  in_stock : Int
  reserved : Int
  available : Int
  reorder_point : Int
  warehouse_location : String
  last_updated : String
deriving DecidableEq, Repr

/-- `LogisticsResponse` dataclass (autogen.py lines 56-63). -/
structure LogisticsResponse where
  carrier : String
  shipping_cost : Rat
  estimated_delivery : String
  tracking_number : Option String := none
  shipping_method : String := "standard"
deriving DecidableEq, Repr

/-- `SupplyChainResult` dataclass (autogen.py lines 66-76). -/
structure SupplyChainResult where
  order_id : String
  status : String
  supplier : Option SupplierResponse := none
  inventory : Option InventoryResponse := none
  logistics : Option LogisticsResponse := none
  coordinator_summary : String := ""
  recommendations : List String := []
  timestamp : String
deriving DecidableEq, Repr

/-- `MockSupplyChainAgentSystem.process_order` (autogen.py lines 316-400),
translated line by line. `now` stands for `datetime.utcnow().isoformat()`
read at evaluation time; it enters only the timestamp fields. -/
def process_order (now : String) (order : OrderDetails) : SupplyChainResult :=
  let available_qty : Int := 500
  let reserved_qty : Int := 100
  let in_stock : Int := available_qty + reserved_qty
  let can_fulfill : Bool := decide (order.quantity ≤ in_stock - reserved_qty)
  let shipping_cost : Rat :=
    if order.priority = "urgent" then 75
    else if order.priority = "high" then 45
    else 25
  let shipping_method : String :=
    if order.priority = "urgent" then "overnight"
    else if order.priority = "high" then "express"
    else "standard"
  let lead_time : Int :=
    if order.priority = "urgent" then 1
    else if order.priority = "high" then 2
    else 5
  let base_price : Rat :=
    if order.quantity ≥ 100 then 45/2
    else if order.quantity ≥ 50 then 25
    else if order.quantity ≥ 10 then 55/2
    else 30
  let status : String := if can_fulfill then "CONFIRMED" else "PENDING"
  let recommendations : List String :=
    (if !can_fulfill then
      ["Insufficient stock. Consider reducing order quantity to " ++
        toString (in_stock - reserved_qty) ++ " or placing a backorder."]
     else []) ++
    (if order.priority = "urgent" ∧ order.quantity > 100 then
      ["Large urgent orders may require split shipments from multiple warehouses."]
     else []) ++
    (if base_price > 25 then
      ["Consider increasing order to 50 units for volume pricing ($25.00/unit)."]
     else [])
  { order_id := order.order_id
    status := status
    supplier := some
      { available := true
        supplier_id := "SUP-" ++ padZeroRightAlign 3 (pyUpper (pyTake order.product_name 3))
        unit_price := base_price
        lead_time_days := lead_time
        capacity := 1000
        notes := (if order.priority ≠ "low" then "Preferred" else "Standard") ++ " supplier tier" }
    inventory := some
      { in_stock := in_stock
        reserved := reserved_qty
        available := in_stock - reserved_qty
        reorder_point := 200
        warehouse_location := "WH-EAST-01"
        last_updated := now }
    logistics := some
      { carrier := "FastShip Logistics"
        shipping_cost := shipping_cost
        estimated_delivery := now
        tracking_number := none
        shipping_method := shipping_method }
    coordinator_summary :=
      "Order " ++ order.order_id ++ " for " ++ toString order.quantity ++ "x " ++
        order.product_name ++ " has been " ++ pyLower status ++ ". " ++
        (if can_fulfill then "Stock is available for immediate fulfillment."
         else "Stock shortage requires supplier coordination.") ++
        " Shipping via " ++ shipping_method ++ " to " ++
        (if order.destination = "" then "default destination" else order.destination) ++ "."
    recommendations := recommendations
    timestamp := now }

/-- C1: the mock status is CONFIRMED exactly when quantity is at most 500
(the baseline in_stock 600 minus reserved 100), and PENDING otherwise,
with no special case for zero or negative quantities. -/
theorem process_order_status_confirmed_iff (now : String) (o : OrderDetails) :
    ((process_order now o).status = "CONFIRMED" ↔ o.quantity ≤ 500) ∧
    ((process_order now o).status = "PENDING" ↔ 500 < o.quantity) ∧
    (o.quantity ≤ 0 → (process_order now o).status = "CONFIRMED") := by
  refine ⟨?_, ?_, ?_⟩ <;> simp [process_order] <;> omega

/-- The unit price in a result's supplier quote, when a quote is present. -/
def resultUnitPrice (r : SupplyChainResult) : Option Rat :=
  r.supplier.map SupplierResponse.unit_price

/-- The unit price of a result's supplier quote, defaulting to 0 with no quote. -/
def resultUnitPriceD (r : SupplyChainResult) : Rat :=
  (resultUnitPrice r).getD 0

/-- Characterization of the unit price produced by the mock path. -/
theorem resultUnitPriceD_eq (now : String) (o : OrderDetails) :
    resultUnitPriceD (process_order now o) =
      (if 100 ≤ o.quantity then 45/2
       else if 50 ≤ o.quantity then 25
       else if 10 ≤ o.quantity then 55/2
       else 30) := by
  simp [resultUnitPriceD, resultUnitPrice, process_order]

/-- C2: the supplier unit price depends only on quantity, through the
descending-threshold tier table with inclusive lower bounds, and is
monotonically non-increasing in quantity. -/
theorem process_order_unit_price_tiers (now : String) (o : OrderDetails) :
    resultUnitPrice (process_order now o) =
      some (if 100 ≤ o.quantity then 45/2
            else if 50 ≤ o.quantity then 25
            else if 10 ≤ o.quantity then 55/2
            else 30) ∧
    (∀ now2 : String, ∀ o2 : OrderDetails, o.quantity ≤ o2.quantity →
      resultUnitPriceD (process_order now2 o2) ≤ resultUnitPriceD (process_order now o)) := by
  constructor
  · simp [process_order, resultUnitPrice]
  · intro now2 o2 h
    rw [resultUnitPriceD_eq, resultUnitPriceD_eq]
    split_ifs <;> first | (exfalso; omega) | norm_num

/-- C3: shipping cost, shipping method and lead time are determined solely by
the priority string, with urgent and high special-cased and every other
priority (normal, low, or unrecognized) receiving the default row. -/
theorem process_order_shipping_by_priority (now : String) (o : OrderDetails) :
    (process_order now o).logistics.map
        (fun l => (l.shipping_cost, l.shipping_method)) =
      some (if o.priority = "urgent" then ((75 : Rat), "overnight")
            else if o.priority = "high" then ((45 : Rat), "express")
            else ((25 : Rat), "standard")) ∧
    (process_order now o).supplier.map SupplierResponse.lead_time_days =
      some (if o.priority = "urgent" then 1
            else if o.priority = "high" then 2
            else 5) := by
  constructor <;> simp [process_order] <;> split_ifs <;> rfl

/-- Characterization of the status produced by the mock path. -/
theorem process_order_status_eq (now : String) (o : OrderDetails) :
    (process_order now o).status =
      (if o.quantity ≤ 500 then "CONFIRMED" else "PENDING") := by
  by_cases h : o.quantity ≤ (500 : Int) <;> simp [process_order, h] <;> omega

/-- The first fixed recommendation message (built by the code with the
interpolated value in_stock - reserved = 500). -/
def msgInsufficientStock : String :=
  "Insufficient stock. Consider reducing order quantity to 500 or placing a backorder."

/-- The second fixed recommendation message. -/
def msgSplitShipments : String :=
  "Large urgent orders may require split shipments from multiple warehouses."

/-- The third fixed recommendation message. -/
def msgVolumePricing : String :=
  "Consider increasing order to 50 units for volume pricing ($25.00/unit)."

/-- C4: the recommendations list is exactly the ordered concatenation of the
three fixed messages, each present precisely when its condition holds:
PENDING status, urgent priority with quantity over 100, and unit price
above 25.00 respectively. -/
theorem process_order_recommendations_exact (now : String) (o : OrderDetails) :
    (process_order now o).recommendations =
      (if (process_order now o).status = "PENDING" then [msgInsufficientStock] else []) ++
      (if o.priority = "urgent" ∧ 100 < o.quantity then [msgSplitShipments] else []) ++
      (if 25 < resultUnitPriceD (process_order now o) then [msgVolumePricing] else []) := by
  have hmsg : "Insufficient stock. Consider reducing order quantity to " ++
      toString ((500 : Int)) ++ " or placing a backorder." = msgInsufficientStock := by decide
  rw [process_order_status_eq, resultUnitPriceD_eq]
  by_cases h1 : o.quantity ≤ (500 : Int) <;>
    by_cases h2 : o.priority = "urgent" <;>
    by_cases h3 : (100 : Int) < o.quantity <;>
    by_cases h4 : (100 : Int) ≤ o.quantity <;>
    by_cases h5 : (50 : Int) ≤ o.quantity <;>
    by_cases h6 : (10 : Int) ≤ o.quantity <;>
    first
      | omega
      | simp +decide [process_order, h1, h2, h3, h4, h5, h6, hmsg,
          msgSplitShipments, msgVolumePricing]

/-- C5: the inventory snapshot is the fixed simulated baseline, independent of
the order, and satisfies available = in_stock - reserved. -/
theorem process_order_inventory_snapshot (now : String) (o : OrderDetails) :
    (process_order now o).inventory =
      some { in_stock := 600, reserved := 100, available := 500,
             reorder_point := 200, warehouse_location := "WH-EAST-01",
             last_updated := now } ∧
    Option.all
      (fun inv => decide (inv.available = inv.in_stock - inv.reserved))
      (process_order now o).inventory = true := by
  constructor <;> simp [process_order]

/-- The supplier-id padding as the specification words it: the uppercased
prefix with filler zeros appended on the RIGHT (left-aligned). The code
instead uses the format spec 0>3, which right-aligns and so puts the
zeros on the left; the two agree only when no padding is needed. -/
def specRightPad (w : Nat) (s : String) : String :=
  String.mk (s.data ++ List.replicate (w - pyLen s) '0')

/-- C6 counterexample: for product_name "a" the code produces supplier id
SUP-00A (zeros on the left), not the right-padded SUP-A00 that the claim
describes, so the claim as stated is false. -/
theorem process_order_supplier_id_pad_counterexample :
    (process_order "t"
        { order_id := "O1", product_name := "a", quantity := 1 }).supplier.map
        SupplierResponse.supplier_id = some "SUP-00A" ∧
    "SUP-" ++ specRightPad 3 (pyUpper (pyTake "a" 3)) = "SUP-A00" ∧
    ("SUP-00A" : String) ≠ "SUP-A00" := by
  refine ⟨by decide, by decide, by decide⟩

/-- C6 (amended): the supplier id is SUP- followed by the first 3 characters
of product_name uppercased, zero-padded on the LEFT (right-aligned) to
width 3 when product_name is shorter; available is always true, capacity is
always 1000, and the notes tier is Standard exactly for low priority. -/
theorem process_order_supplier_quote (now : String) (o : OrderDetails) :
    (process_order now o).supplier.map
        (fun s => (s.supplier_id, s.available, s.capacity, s.notes)) =
      some ("SUP-" ++ String.mk
              (List.replicate (3 - min 3 (pyLen o.product_name)) '0' ++
                (o.product_name.data.take 3).map Char.toUpper),
            true, 1000,
            if o.priority = "low" then "Standard supplier tier"
            else "Preferred supplier tier") := by
  by_cases hl : o.priority = "low" <;>
    simp [process_order, padZeroRightAlign, pyUpper, pyTake, pyLen, hl,
      List.length_take, List.length_map]

/-- C7: the coordinator summary is exactly the composed sentence, with the
lower-cased status, the availability clause chosen by fulfillability, and
the destination defaulting to the literal text when empty. -/
theorem process_order_coordinator_summary (now : String) (o : OrderDetails) :
    (process_order now o).coordinator_summary =
      "Order " ++ o.order_id ++ " for " ++ toString o.quantity ++ "x " ++
        o.product_name ++ " has been " ++
        (if o.quantity ≤ 500 then "confirmed" else "pending") ++ ". " ++
        (if o.quantity ≤ 500 then "Stock is available for immediate fulfillment."
         else "Stock shortage requires supplier coordination.") ++
        " Shipping via " ++
        (if o.priority = "urgent" then "overnight"
         else if o.priority = "high" then "express"
         else "standard") ++
        " to " ++
        (if o.destination = "" then "default destination" else o.destination) ++ "." := by
  have hc : pyLower "CONFIRMED" = "confirmed" := by decide
  have hp : pyLower "PENDING" = "pending" := by decide
  by_cases hq : o.quantity ≤ (500 : Int) <;>
    simp [process_order, hq, hc, hp, String.append_assoc]

/-- C8: the evaluator is deterministic in its decision fields: two runs with
the same quantity, priority, product_name, order_id and destination give the
same status, unit price, lead time, shipping cost, shipping method,
coordinator summary and recommendations, whatever the two evaluation
timestamps and the unused required_date and notes fields are. -/
theorem process_order_deterministic (n1 n2 oid pn : String) (q : Int)
    (pr dest : String) (rd1 rd2 : Option String) (nt1 nt2 : String) :
    ((process_order n1 (OrderDetails.mk oid pn q pr dest rd1 nt1)).status =
      (process_order n2 (OrderDetails.mk oid pn q pr dest rd2 nt2)).status) ∧
    (resultUnitPrice (process_order n1 (OrderDetails.mk oid pn q pr dest rd1 nt1)) =
      resultUnitPrice (process_order n2 (OrderDetails.mk oid pn q pr dest rd2 nt2))) ∧
    ((process_order n1 (OrderDetails.mk oid pn q pr dest rd1 nt1)).supplier.map
        SupplierResponse.lead_time_days =
      (process_order n2 (OrderDetails.mk oid pn q pr dest rd2 nt2)).supplier.map
        SupplierResponse.lead_time_days) ∧
    ((process_order n1 (OrderDetails.mk oid pn q pr dest rd1 nt1)).logistics.map
        (fun l => (l.shipping_cost, l.shipping_method)) =
      (process_order n2 (OrderDetails.mk oid pn q pr dest rd2 nt2)).logistics.map
        (fun l => (l.shipping_cost, l.shipping_method))) ∧
    ((process_order n1 (OrderDetails.mk oid pn q pr dest rd1 nt1)).coordinator_summary =
      (process_order n2 (OrderDetails.mk oid pn q pr dest rd2 nt2)).coordinator_summary) ∧
    ((process_order n1 (OrderDetails.mk oid pn q pr dest rd1 nt1)).recommendations =
      (process_order n2 (OrderDetails.mk oid pn q pr dest rd2 nt2)).recommendations) :=
  ⟨rfl, rfl, rfl, rfl, rfl, rfl⟩

/-- A loosely-typed Python value as it can appear in the request dictionary
passed to process_supply_chain_order. -/
inductive PyVal where
  | pystr (s : String)
  | pyint (n : Int)
  | pynone
deriving DecidableEq, Repr

/-- Python dict.get with a default: first-match lookup in an association
list (a Python dict has unique keys, so first-match is exact). -/
def dictGet : List (String × PyVal) → String → PyVal → PyVal
  | [], _, dflt => dflt
  | (k2, v) :: rest, k, dflt => if k2 = k then v else dictGet rest k dflt

/-- First-match lookup, none when the key is absent. -/
def lookupKey : List (String × PyVal) → String → Option PyVal
  | [], _ => none
  | (k2, v) :: rest, k => if k2 = k then some v else lookupKey rest k

theorem dictGet_eq_lookupKey (d : List (String × PyVal)) (k : String) (dflt : PyVal) :
    dictGet d k dflt = (lookupKey d k).getD dflt := by
  induction d with
  | nil => rfl
  | cons hd t ih =>
    obtain ⟨k2, v⟩ := hd
    by_cases hk : k2 = k <;> simp [dictGet, lookupKey, hk, ih]

/-- The OrderDetails record as built by process_supply_chain_order, with
the loosely-typed values kept as-is (the Python constructor performs no
validation or coercion). -/
structure PyOrderDetails where
  order_id : PyVal
  product_name : PyVal
  quantity : PyVal
  priority : PyVal
  destination : PyVal
  required_date : PyVal
  notes : PyVal
deriving DecidableEq, Repr

/-- The Order construction in process_supply_chain_order (autogen.py lines
428-436): each recognized field is read with dict.get and its documented
default; `now` stands for the UTC timestamp string
datetime.utcnow().strftime of the yyyyMMddHHmmss pattern. -/
def build_order (now : String) (d : List (String × PyVal)) : PyOrderDetails :=
  { order_id := dictGet d "order_id" (PyVal.pystr ("ORD-" ++ now))
    product_name := dictGet d "product_name" (PyVal.pystr "Unknown Product")
    quantity := dictGet d "quantity" (PyVal.pyint 1)
    priority := dictGet d "priority" (PyVal.pystr "normal")
    destination := dictGet d "destination" (PyVal.pystr "")
    required_date := dictGet d "required_date" PyVal.pynone
    notes := dictGet d "notes" (PyVal.pystr "") }

/-- The request-dictionary keys process_supply_chain_order reads. -/
def recognizedKeys : List String :=
  ["order_id", "product_name", "quantity", "priority", "destination",
   "required_date", "notes"]

theorem lookupKey_filter_recognized (d : List (String × PyVal)) (k : String)
    (hk : k ∈ recognizedKeys) :
    lookupKey (d.filter fun kv => decide (kv.1 ∈ recognizedKeys)) k = lookupKey d k := by
  induction d with
  | nil => rfl
  | cons hd t ih =>
    obtain ⟨k2, v⟩ := hd
    by_cases h2 : k2 ∈ recognizedKeys
    · by_cases hkk : k2 = k <;> simp [List.filter, lookupKey, h2, hkk, ih, hk]
    · have hne : k2 ≠ k := fun e => h2 (e ▸ hk)
      simp [List.filter, lookupKey, h2, hne, ih]

/-- C9: every recognized field of the constructed order is the request's
value when the key is present (getD of some) and the documented default
when absent (getD of none) — order_id defaulting to ORD- followed by the
generation timestamp — and entries under unrecognized keys have no effect:
filtering them out leaves the constructed order unchanged. -/
theorem build_order_fields (now : String) (d : List (String × PyVal)) :
    (build_order now d).order_id =
      (lookupKey d "order_id").getD (PyVal.pystr ("ORD-" ++ now)) ∧
    (build_order now d).product_name =
      (lookupKey d "product_name").getD (PyVal.pystr "Unknown Product") ∧
    (build_order now d).quantity = (lookupKey d "quantity").getD (PyVal.pyint 1) ∧
    (build_order now d).priority = (lookupKey d "priority").getD (PyVal.pystr "normal") ∧
    (build_order now d).destination = (lookupKey d "destination").getD (PyVal.pystr "") ∧
    (build_order now d).required_date = (lookupKey d "required_date").getD PyVal.pynone ∧
    (build_order now d).notes = (lookupKey d "notes").getD (PyVal.pystr "") ∧
    build_order now d =
      build_order now (d.filter fun kv => decide (kv.1 ∈ recognizedKeys)) := by
  have h1 := lookupKey_filter_recognized d "order_id" (by decide)
  have h2 := lookupKey_filter_recognized d "product_name" (by decide)
  have h3 := lookupKey_filter_recognized d "quantity" (by decide)
  have h4 := lookupKey_filter_recognized d "priority" (by decide)
  have h5 := lookupKey_filter_recognized d "destination" (by decide)
  have h6 := lookupKey_filter_recognized d "required_date" (by decide)
  have h7 := lookupKey_filter_recognized d "notes" (by decide)
  refine ⟨?_, ?_, ?_, ?_, ?_, ?_, ?_, ?_⟩ <;>
    simp [build_order, dictGet_eq_lookupKey, h1, h2, h3, h4, h5, h6, h7]

/-- C10: the three recommendation conditions can never all hold together:
quantity over 500 forces the cheapest price tier, so the insufficient-stock
and volume-pricing messages are mutually exclusive and the list holds at
most two messages. -/
theorem process_order_at_most_two_recommendations (now : String) (o : OrderDetails) :
    (process_order now o).recommendations.length ≤ 2 ∧
    (msgInsufficientStock ∉ (process_order now o).recommendations ∨
     msgVolumePricing ∉ (process_order now o).recommendations) := by
  by_cases h1 : o.quantity ≤ (500 : Int) <;>
    by_cases h2 : o.priority = "urgent" <;>
    by_cases h3 : (100 : Int) < o.quantity <;>
    by_cases h4 : (100 : Int) ≤ o.quantity <;>
    by_cases h5 : (50 : Int) ≤ o.quantity <;>
    by_cases h6 : (10 : Int) ≤ o.quantity <;>
    first
      | (exfalso; omega)
      | (simp +decide [process_order, h1, h2, h3, h4, h5, h6,
          msgInsufficientStock, msgSplitShipments, msgVolumePricing] <;> norm_num)
